import Mathlib

/-!
Verification of the HWAddressSanitizer instrumentation pass
(src/llvm/lib/Transforms/Instrumentation/HWAddressSanitizer.cpp).

Machine integers are modelled as `Nat` with an explicit `% 2 ^ 64`
wherever the C++/IR computation can overflow a 64-bit register, and
`% 256` where the IR value is an `i8`.
-/

namespace HWASan

/-- Modulus of a 64-bit machine word. -/
def word : Nat := 2 ^ 64

/-- All-ones 64-bit word, used to model bitwise complement `~x` as
`wordOnes ^^^ x`. -/
def wordOnes : Nat := 2 ^ 64 - 1

/-- Embeds `kDynamicShadowSentinel = std::numeric_limits<uint64_t>::max()`. -/
def kDynamicShadowSentinel : Nat := 2 ^ 64 - 1

/-- Embeds `kDefaultShadowScale = 4`. -/
def kDefaultShadowScale : Nat := 4

/-- Embeds `PointerTagShift = IsX86_64 ? 57 : 56` from
`HWAddressSanitizer::initializeModule`. -/
def pointerTagShift (isX86_64 : Bool) : Nat :=
  if isX86_64 then 57 else 56

/-- Embeds `TagMaskByte = IsX86_64 ? 0x3F : 0xFF` from
`HWAddressSanitizer::initializeModule`. -/
def tagMaskByte (isX86_64 : Bool) : Nat :=
  if isX86_64 then 0x3F else 0xFF

/-- Embeds the userspace branch of `HWAddressSanitizer::tagPointer`:
`TaggedPtrLong = Or(PtrLong, Shl(Tag, PointerTagShift))`, on 64-bit words. -/
def tagPointerUser (shift ptr t : Nat) : Nat :=
  ptr ||| ((t <<< shift) % word)

/-- Embeds the kernel branch of `HWAddressSanitizer::tagPointer`:
`ShiftedTag = Or(Shl(Tag, PointerTagShift), (1 << PointerTagShift) - 1)`;
`TaggedPtrLong = And(PtrLong, ShiftedTag)`. -/
def tagPointerKernel (shift ptr t : Nat) : Nat :=
  ptr &&& (((t <<< shift) % word) ||| ((1 <<< shift) - 1))

/-- Embeds `HWAddressSanitizer::tagPointer` (dispatch on `CompileKernel`). -/
def tagPointer (compileKernel : Bool) (shift ptr t : Nat) : Nat :=
  if compileKernel then tagPointerKernel shift ptr t
  else tagPointerUser shift ptr t

/-- Embeds the userspace branch of `HWAddressSanitizer::untagPointer`:
`UntaggedPtrLong = And(PtrLong, ~(TagMaskByte << PointerTagShift))`. -/
def untagPointerUser (mask shift ptr : Nat) : Nat :=
  ptr &&& (wordOnes ^^^ ((mask <<< shift) % word))

/-- Embeds the kernel branch of `HWAddressSanitizer::untagPointer`:
`UntaggedPtrLong = Or(PtrLong, TagMaskByte << PointerTagShift)`. -/
def untagPointerKernel (mask shift ptr : Nat) : Nat :=
  ptr ||| ((mask <<< shift) % word)

/-- Embeds `HWAddressSanitizer::untagPointer` (dispatch on `CompileKernel`). -/
def untagPointer (compileKernel : Bool) (mask shift ptr : Nat) : Nat :=
  if compileKernel then untagPointerKernel mask shift ptr
  else untagPointerUser mask shift ptr

/-- Embeds the pointer-tag extraction of
`HWAddressSanitizer::instrumentMemAccessInline`:
`PtrTag = Trunc(LShr(PtrLong, PointerTagShift), Int8Ty)`. -/
def extractPtrTag (shift ptr : Nat) : Nat :=
  (ptr >>> shift) % 256

/-- Embeds the `FastMasks` table of `HWAddressSanitizer::retagMask`:
36 byte values with at most one run of non-zero bits. -/
def fastMasks : List Nat :=
  [0, 128, 64, 192, 32, 96, 224, 112, 240, 48, 16, 120,
   248, 56, 24, 8, 124, 252, 60, 28, 12, 4, 126, 254,
   62, 30, 14, 6, 2, 127, 63, 31, 15, 7, 3, 1]

/-- Embeds `HWAddressSanitizer::retagMask`: on x86_64 it is
`AllocaNo & TagMaskByte`; on other architectures it indexes `FastMasks`
by `AllocaNo % size(FastMasks)`. -/
def retagMask (isX86_64 : Bool) (allocaNo : Nat) : Nat :=
  if isX86_64 then allocaNo &&& tagMaskByte true
  else fastMasks.getD (allocaNo % fastMasks.length) 0

/-- Shadow mapping parameters; embeds `HWAddressSanitizer::ShadowMapping`. -/
structure ShadowMapping where
  scale : Nat
  offset : Nat
  inGlobal : Bool
  inTls : Bool
  withFrameRecord : Bool
deriving DecidableEq

/-- Inputs of `HWAddressSanitizer::ShadowMapping::init`: platform facts and
flags. `clMappingOffset` is `some v` exactly when
`ClMappingOffset.getNumOccurrences() > 0` with value `v`. -/
structure MappingConfig where
  isFuchsia : Bool
  clMappingOffset : Option Nat
  clEnableKhwasan : Bool
  instrumentWithCalls : Bool
  clWithIfunc : Bool
  clWithTls : Bool
deriving DecidableEq

/-- Embeds `HWAddressSanitizer::ShadowMapping::init` branch for branch. -/
def shadowMappingInit (cfg : MappingConfig) : ShadowMapping :=
  if cfg.isFuchsia then
    { scale := kDefaultShadowScale, offset := 0,
      inGlobal := false, inTls := false, withFrameRecord := true }
  else
    match cfg.clMappingOffset with
    | some off =>
      { scale := kDefaultShadowScale, offset := off,
        inGlobal := false, inTls := false, withFrameRecord := false }
    | none =>
      if cfg.clEnableKhwasan || cfg.instrumentWithCalls then
        { scale := kDefaultShadowScale, offset := 0,
          inGlobal := false, inTls := false, withFrameRecord := false }
      else if cfg.clWithIfunc then
        { scale := kDefaultShadowScale, offset := kDynamicShadowSentinel,
          inGlobal := true, inTls := false, withFrameRecord := false }
      else if cfg.clWithTls then
        { scale := kDefaultShadowScale, offset := kDynamicShadowSentinel,
          inGlobal := false, inTls := true, withFrameRecord := true }
      else
        { scale := kDefaultShadowScale, offset := kDynamicShadowSentinel,
          inGlobal := false, inTls := false, withFrameRecord := false }

/-- Count of active addressing modes of a resolved mapping: a static
numeric offset, an ifunc global, a TLS slot, or a plain dynamic shadow
(dynamic sentinel with neither global nor TLS). -/
def addressingModes (m : ShadowMapping) : Nat :=
  (if m.offset ≠ kDynamicShadowSentinel then 1 else 0) +
  (if m.inGlobal then 1 else 0) +
  (if m.inTls then 1 else 0) +
  (if m.offset = kDynamicShadowSentinel ∧ m.inGlobal = false ∧ m.inTls = false
    then 1 else 0)

/-- Embeds `llvm::alignTo(Size, Align)` for a power-of-two alignment:
round `size` up to the next multiple of `align`. -/
def alignTo (size align : Nat) : Nat := ((size + align - 1) / align) * align

/-- Shadow and object stores performed by `HWAddressSanitizer::tagAlloca`
(non-call path): `tagBytes` shadow bytes are memset with the allocation
tag, and `shortGranuleEntry = some (shadowIndex, remainder, objectOffset)`
records the short-granule remainder byte written at `ShadowPtr[shadowIndex]`
and the tag byte duplicated at object offset `objectOffset`. -/
structure TagAllocaWrites where
  tagBytes : Nat
  shortGranuleEntry : Option (Nat × Nat × Nat)
deriving DecidableEq

/-- Embeds `HWAddressSanitizer::tagAlloca` (the `!InstrumentWithCalls`
branch): `AlignedSize = alignTo(Size, 1 << Scale)`; without short granules
`Size` is replaced by `AlignedSize`; `ShadowSize = Size >> Scale` bytes of
shadow are filled with the tag; if `Size != AlignedSize` the shadow byte at
index `ShadowSize` receives `Size % granule` and the tag is stored at
object offset `AlignedSize - 1`. -/
def tagAlloca (useShortGranules : Bool) (scale size : Nat) : TagAllocaWrites :=
  let granule := 1 <<< scale
  let alignedSize := alignTo size granule
  let sz := if useShortGranules then size else alignedSize
  let shadowSize := sz >>> scale
  if sz ≠ alignedSize then
    { tagBytes := shadowSize,
      shortGranuleEntry := some (shadowSize, sz % granule, alignedSize - 1) }
  else
    { tagBytes := shadowSize, shortGranuleEntry := none }

/-- Embeds the fault decision of
`HWAddressSanitizer::instrumentMemAccessInline`, given the loaded shadow
memory tag `memTag` and the tag `inlineTag` loaded from the granule's last
byte (`Or(AddrLong, 15)`): mismatching tags (modulo the optional match-all
tag) fall through to the short-granule range check
`(PtrLong & 15) + (1 << AccessSizeIndex) - 1 >= MemTag` (an i8 compare)
and finally to the inline-tag comparison. Returns `true` iff the access
reaches the fault (`CheckFailTerm`) block. -/
def inlineCheckFault (matchAllTag : Option Nat)
    (ptrTag memTag addr accessSizeIndex inlineTag : Nat) : Bool :=
  let tagMismatch :=
    match matchAllTag with
    | some m => ptrTag != memTag && ptrTag != m
    | none => ptrTag != memTag
  if tagMismatch then
    if 15 < memTag then true
    else if memTag ≤ ((addr &&& 15) + ((1 <<< accessSizeIndex) - 1)) % 256 then
      true
    else ptrTag != inlineTag
  else false

/-- Embeds the per-global tag clamp of
`HWAddressSanitizer::instrumentGlobals`:
`if (Tag < 16 || Tag > TagMaskByte) Tag = 16;`. -/
def clampGlobalTag (tagMask t : Nat) : Nat :=
  if t < 16 ∨ tagMask < t then 16 else t

/-- Tag assigned to the `n`-th eligible global by
`HWAddressSanitizer::instrumentGlobals`: the counter starts at the seed
(`Hash[0]`, the first byte of the MD5 of the module source-file name,
modelled as an abstract parameter), is clamped into `[16, TagMaskByte]`
before use, and is post-incremented as a `uint8_t` (hence the `% 256`). -/
def globalTag (tagMask seed : Nat) : Nat → Nat
  | 0 => clampGlobalTag tagMask seed
  | n + 1 => clampGlobalTag tagMask ((globalTag tagMask seed n + 1) % 256)

/-- Structural embedding of `StringRef::startswith`. -/
def listIsPrefix : List Char → List Char → Bool
  | [], _ => true
  | _ :: _, [] => false
  | c :: cs, d :: ds => c == d && listIsPrefix cs ds

/-- String prefix test used by the global-selection filter. -/
def strStartsWith (s pre : String) : Bool := listIsPrefix pre.data s.data

/-- The literal "llvm." checked by `instrumentGlobals`. -/
def llvmDot : String := "llvm."

/-- Suffix appended to the renamed storage object in `instrumentGlobal`. -/
def hwasanSuffix : String := ".hwasan"

/-- Suffix of descriptor globals created in `instrumentGlobal`. -/
def descriptorSuffix : String := ".hwasan.descriptor"

/-- Properties of a module global variable that the selection loop of
`HWAddressSanitizer::instrumentGlobals` inspects. `noHWAddress` combines
`hasSanitizerMetadata() && getSanitizerMetadata().NoHWAddress`. -/
structure GlobalInfo where
  name : String
  noHWAddress : Bool
  isDeclarationForLinker : Bool
  isThreadLocal : Bool
  hasCommonLinkage : Bool
  hasSection : Bool
deriving DecidableEq

/-- Embeds the eligibility filter of
`HWAddressSanitizer::instrumentGlobals` (lines 1622-1641): skip
NoHWAddress-annotated, declarations, `llvm.`-prefixed, thread-local,
common-linkage and sectioned globals. -/
def selectedForTagging (g : GlobalInfo) : Bool :=
  !g.noHWAddress && !g.isDeclarationForLinker &&
    !(strStartsWith g.name llvmDot) && !g.isThreadLocal &&
    !g.hasCommonLinkage && !g.hasSection

/-- The renamed storage object created by
`HWAddressSanitizer::instrumentGlobal`: `GV->getName() + ".hwasan"`,
attributes copied from the original (`copyAttributesFrom`/`copyMetadata`;
the original passed the filter, so it had no section, was not thread-local
and carried no NoHWAddress metadata), linkage set to private, initializer
present (so not a declaration). -/
def storageGlobal (g : GlobalInfo) : GlobalInfo :=
  { name := g.name ++ hwasanSuffix
    noHWAddress := g.noHWAddress
    isDeclarationForLinker := false
    isThreadLocal := g.isThreadLocal
    hasCommonLinkage := false
    hasSection := g.hasSection }

/-- A descriptor global created by `HWAddressSanitizer::instrumentGlobal`:
private, initialized, and placed in the `hwasan_globals` section. The
source emits `ceil(size / 0xfffff0)` of them per global; they all carry
the same selection-relevant attributes, so the model keeps one. -/
def descriptorGlobal (g : GlobalInfo) : GlobalInfo :=
  { name := g.name ++ descriptorSuffix
    noHWAddress := false
    isDeclarationForLinker := false
    isThreadLocal := false
    hasCommonLinkage := false
    hasSection := true }

/-- Module state relevant to global tagging: the global variables and the
names of the global aliases (aliases are not `GlobalVariable`s and are
not visited by `M.globals()`). -/
structure ModuleGlobals where
  vars : List GlobalInfo
  aliases : List String
deriving DecidableEq

/-- Embeds one run of `HWAddressSanitizer::instrumentGlobals` over a
module: each selected global is erased and replaced by its renamed storage
object, its descriptor(s), and an alias carrying the original name
(`Alias->takeName(GV)`); unselected globals are left in place. -/
def instrumentGlobalsOnce (m : ModuleGlobals) : ModuleGlobals :=
  let selected := m.vars.filter selectedForTagging
  { vars := m.vars.filter (fun g => !(selectedForTagging g)) ++
      selected.map storageGlobal ++ selected.map descriptorGlobal
    aliases := m.aliases ++ selected.map (fun g => g.name) }

/-- Per-function facts inspected by the guard clauses of
`HWAddressSanitizer::sanitizeFunction` and by
`HWAddressSanitizer::instrumentPersonalityFunctions`. -/
structure FuncInfo where
  isHwasanCtor : Bool
  sanitizeHWAddress : Bool
  isDeclaration : Bool
  hasPersonalityFn : Bool
  hasNoUnwindAttr : Bool
deriving DecidableEq

/-- Embeds the guard clauses at the top of
`HWAddressSanitizer::sanitizeFunction` (lines 1451-1457): the pass's own
module constructor and functions without the `sanitize_hwaddress`
attribute are returned from before any instruction is touched. The result
is `true` iff processing continues past the guards (all code that mutates
the function body comes after them). -/
def sanitizeFunctionActs (f : FuncInfo) : Bool :=
  if f.isHwasanCtor then false
  else if !f.sanitizeHWAddress then false
  else true

/-- Embeds the grouping filter of
`HWAddressSanitizer::instrumentPersonalityFunctions` (lines 1669-1677): a
function joins a personality group (and later has its personality replaced
by a thunk) iff it is a definition, carries `sanitize_hwaddress`, and
either has a personality function or lacks the `nounwind` attribute. -/
def personalityThunkApplies (f : FuncInfo) : Bool :=
  if f.isDeclaration || !f.sanitizeHWAddress then false
  else f.hasPersonalityFn || !f.hasNoUnwindAttr

/-- One interesting memory operand, as consumed by
`HWAddressSanitizer::instrumentMemAccess`. -/
structure MemAccessOperand where
  maybeMask : Bool
  isWrite : Bool
  typeStoreSizeBits : Nat
  isScalable : Bool
  alignment : Option Nat
deriving DecidableEq

/-- Which check sequence `instrumentMemAccess` emits for an operand. -/
inductive MemCheckEmission where
  | noEmission
  | callbackFixed (isWrite : Bool) (sizeIndex : Nat)
  | outlined (isWrite : Bool) (sizeIndex : Nat)
  | inlineSeq (isWrite : Bool) (sizeIndex : Nat)
  | callbackSized (isWrite : Bool)
deriving DecidableEq

/-- Result of `instrumentMemAccess`: its boolean return value, the check
emitted, and whether `untagPointerOperand` rewrites the access's pointer
operand. -/
structure InstrumentResult where
  changed : Bool
  emission : MemCheckEmission
  untagsPointerOperand : Bool
deriving DecidableEq

/-- Pass configuration consumed by `instrumentMemAccess`.
`archIgnoresTagBits` is true exactly when `untagPointerOperand` returns
early (AArch64, x86_64 or RISCV64). -/
structure AccessConfig where
  instrumentWithCalls : Bool
  outlinedChecks : Bool
  scale : Nat
  archIgnoresTagBits : Bool
deriving DecidableEq

/-- Embeds `llvm::isPowerOf2_64`. -/
def isPowerOfTwo (n : Nat) : Bool := n != 0 && (n &&& (n - 1)) == 0

/-- Embeds `TypeSizeToSizeIndex` (`countr_zero(TypeSize / 8)`); on the
power-of-two byte sizes that reach it this equals the base-2 logarithm. -/
def typeSizeToSizeIndex (typeSize : Nat) : Nat := (typeSize / 8).log2

/-- Embeds `HWAddressSanitizer::instrumentMemAccess` (lines 993-1040):
masked operands are rejected up front; otherwise a power-of-two,
non-scalable size of at most `1 << (kNumberOfAccessSizes - 1)` bytes with
adequate alignment selects the fixed-size path (runtime callback, outlined
check, or inline check), any other shape the sized callback; finally
`untagPointerOperand` rewrites the pointer operand unless the target
ignores tag bits. -/
def instrumentMemAccess (cfg : AccessConfig) (o : MemAccessOperand) :
    InstrumentResult :=
  if o.maybeMask then
    { changed := false, emission := MemCheckEmission.noEmission,
      untagsPointerOperand := false }
  else
    let fixedSizeShape :=
      !o.isScalable && isPowerOfTwo o.typeStoreSizeBits &&
        decide (o.typeStoreSizeBits / 8 ≤ 1 <<< 4) &&
        (match o.alignment with
         | none => true
         | some a =>
           decide (2 ^ cfg.scale ≤ a) || decide (o.typeStoreSizeBits / 8 ≤ a))
    let emission :=
      if fixedSizeShape then
        let k := typeSizeToSizeIndex o.typeStoreSizeBits
        if cfg.instrumentWithCalls then MemCheckEmission.callbackFixed o.isWrite k
        else if cfg.outlinedChecks then MemCheckEmission.outlined o.isWrite k
        else MemCheckEmission.inlineSeq o.isWrite k
      else MemCheckEmission.callbackSized o.isWrite
    { changed := true, emission := emission,
      untagsPointerOperand := !cfg.archIgnoresTagBits }

/-! ## Helper lemmas -/

lemma untag_tag_user_full_byte (p t : Nat) :
    untagPointerUser 0xFF 56 (tagPointerUser 56 p t) =
      untagPointerUser 0xFF 56 p := by
  apply Nat.eq_of_testBit_eq
  intro i
  have h255 : (0xFF : Nat) = 2 ^ 8 - 1 := by norm_num
  simp only [untagPointerUser, tagPointerUser, word, wordOnes, h255,
    Nat.testBit_land, Nat.testBit_lor, Nat.testBit_xor,
    Nat.testBit_mod_two_pow, Nat.testBit_shiftLeft, Nat.testBit_two_pow_sub_one]
  by_cases h1 : i < 56
  · simp [show i < 64 by omega, show ¬ (56 ≤ i) by omega]
  · by_cases h2 : i < 64
    · simp [h2, show 56 ≤ i by omega, show i - 56 < 8 by omega]
    · simp [h2]

lemma untag_tag_kernel_full_byte (p t : Nat) (hp : p < 2 ^ 64) :
    untagPointerKernel 0xFF 56 (tagPointerKernel 56 p t) =
      untagPointerKernel 0xFF 56 p := by
  apply Nat.eq_of_testBit_eq
  intro i
  have h255 : (0xFF : Nat) = 2 ^ 8 - 1 := by norm_num
  have h156 : (1 <<< 56 : Nat) = 2 ^ 56 := by decide
  simp only [untagPointerKernel, tagPointerKernel, word, wordOnes, h255, h156,
    Nat.testBit_land, Nat.testBit_lor,
    Nat.testBit_mod_two_pow, Nat.testBit_shiftLeft, Nat.testBit_two_pow_sub_one]
  by_cases h1 : i < 56
  · simp [h1, show i < 64 by omega]
  · by_cases h2 : i < 64
    · simp [h1, h2, show 56 ≤ i by omega, show i - 56 < 8 by omega]
    · have hpb : p.testBit i = false :=
        Nat.testBit_lt_two_pow
          (Nat.lt_of_lt_of_le hp (Nat.pow_le_pow_right (by norm_num) (by omega)))
      simp [h1, h2, hpb]

lemma alignTo_of_mod_eq_zero {g s : Nat} (hg : 0 < g) (h : s % g = 0) :
    alignTo s g = s := by
  obtain ⟨q, rfl⟩ := Nat.dvd_of_mod_eq_zero h
  unfold alignTo
  rw [show g * q + g - 1 = g * q + (g - 1) from by omega,
    Nat.mul_add_div hg, Nat.div_eq_of_lt (show g - 1 < g by omega),
    Nat.add_zero, Nat.mul_comm]

lemma alignTo_of_mod_ne_zero {g s : Nat} (hg : 0 < g) (h : s % g ≠ 0) :
    alignTo s g = (s / g + 1) * g := by
  have hq := Nat.div_add_mod s g
  have hrlt : s % g < g := Nat.mod_lt _ hg
  have h1 : s + g - 1 = g * (s / g) + (s % g + g - 1) := by omega
  have h2 : (s % g + g - 1) / g = 1 :=
    Nat.div_eq_of_lt_le (by omega) (by omega)
  unfold alignTo
  rw [h1, Nat.mul_add_div hg, h2]

lemma lt_alignTo_of_mod_ne_zero {g s : Nat} (hg : 0 < g) (h : s % g ≠ 0) :
    s < alignTo s g := by
  rw [alignTo_of_mod_ne_zero hg h]
  have hq := Nat.div_add_mod s g
  have hrlt : s % g < g := Nat.mod_lt _ hg
  have he : (s / g + 1) * g = g * (s / g) + g := by ring
  omega

lemma clampGlobalTag_mem {tagMask : Nat} (h16 : 16 ≤ tagMask) (t : Nat) :
    16 ≤ clampGlobalTag tagMask t ∧ clampGlobalTag tagMask t ≤ tagMask := by
  unfold clampGlobalTag
  split <;> omega

/-! ## Claim C1 -/

/-- Claim C1, counterexample: the contract `untag(tag(p,t)) == untag(p)`
fails as universally quantified on the x86_64 parameters
(`PointerTagShift = 57`, `TagMaskByte = 0x3F`): in user mode with `p = 0`
and the 8-bit tag `t = 64`, `Shl(64, 57)` sets bit 63, which
`And(~, 0x3F << 57)` does not clear. -/
theorem claim1_counterexample :
    untagPointer false (tagMaskByte true) (pointerTagShift true)
        (tagPointer false (pointerTagShift true) 0 64) ≠
      untagPointer false (tagMaskByte true) (pointerTagShift true) 0 := by
  decide

/-- Claim C1, amended: on architectures where the tag occupies the full
top byte (`PointerTagShift = 56`, `TagMaskByte = 0xFF`, i.e. every
supported target except x86_64), `untag(tag(p,t)) = untag(p)` holds for
every 64-bit pointer `p` and every tag `t`, in user mode (OR of the
shifted tag, AND-clear to untag) and in kernel mode (AND-mask tagging,
OR-to-ones untag) alike. -/
theorem claim1_theorem (compileKernel : Bool) (p t : Nat) (hp : p < 2 ^ 64) :
    untagPointer compileKernel (tagMaskByte false) (pointerTagShift false)
        (tagPointer compileKernel (pointerTagShift false) p t) =
      untagPointer compileKernel (tagMaskByte false) (pointerTagShift false) p := by
  cases compileKernel
  · simpa [untagPointer, tagPointer, tagMaskByte, pointerTagShift] using
      untag_tag_user_full_byte p t
  · simpa [untagPointer, tagPointer, tagMaskByte, pointerTagShift] using
      untag_tag_kernel_full_byte p t hp

/-- Claim C1, witness at kernel mode, `p = 5`, `t = 3`. -/
theorem claim1_witness :
    untagPointer true (tagMaskByte false) (pointerTagShift false)
        (tagPointer true (pointerTagShift false) 5 3) =
      untagPointer true (tagMaskByte false) (pointerTagShift false) 5 :=
  claim1_theorem true 5 3 (by norm_num)

/-! ## Claim C8 -/

/-- Claim C8, counterexample: the tag recovered by the inline check
(`Trunc(LShr(PtrLong, PointerTagShift), i8)`) from `tag(p, t)` is ORed
with the pointer's pre-existing top-byte bits, so for `p = 2^56`, `t = 0`
(full-byte parameters, user mode) it is `1`, not `t mod (TagMaskByte+1) = 0`. -/
theorem claim8_counterexample :
    extractPtrTag (pointerTagShift false)
        (tagPointer false (pointerTagShift false) (2 ^ 56) 0) ≠
      0 % (tagMaskByte false + 1) := by
  decide

/-- Claim C8, amended: for a pointer whose tag field is clear
(`p < 2^56`) on architectures with a full-byte tag (`PointerTagShift = 56`,
`TagMaskByte = 0xFF`), the tag recovered from `tag(p,t)` in user mode
equals `t mod (TagMaskByte + 1)`. -/
theorem claim8_theorem (p t : Nat) (hp : p < 2 ^ 56) :
    extractPtrTag (pointerTagShift false)
        (tagPointer false (pointerTagShift false) p t) =
      t % (tagMaskByte false + 1) := by
  have hm : tagMaskByte false + 1 = 256 := by norm_num [tagMaskByte]
  rw [hm]
  apply Nat.eq_of_testBit_eq
  intro i
  have h256 : (256 : Nat) = 2 ^ 8 := by norm_num
  simp only [extractPtrTag, tagPointer, tagPointerUser, pointerTagShift,
    Bool.false_eq_true, if_false, word, h256,
    Nat.testBit_lor, Nat.testBit_mod_two_pow, Nat.testBit_shiftLeft,
    Nat.testBit_shiftRight]
  have hpb : p.testBit (56 + i) = false :=
    Nat.testBit_lt_two_pow
      (Nat.lt_of_lt_of_le hp (Nat.pow_le_pow_right (by norm_num) (by omega)))
  by_cases h1 : i < 8
  · simp [h1, hpb, show 56 + i < 64 by omega, show 56 ≤ 56 + i by omega,
      show 56 + i - 56 = i by omega]
  · simp [h1]

/-- Claim C8, witness at `p = 7`, `t = 300`. -/
theorem claim8_witness :
    extractPtrTag (pointerTagShift false)
        (tagPointer false (pointerTagShift false) 7 300) =
      300 % (tagMaskByte false + 1) :=
  claim8_theorem 7 300 (by norm_num)

/-! ## Claim C2 -/

/-- Claim C2, counterexample: for a 20-byte allocation with granule 16
(scale 4) and short granules enabled, `tagAlloca` writes the remainder 4
to shadow byte 1 as claimed, but duplicates the allocation tag at object
offset `AlignedSize - 1 = 31`, not at offset `s - 1 = 19` as the claim
states. -/
theorem claim2_counterexample :
    (tagAlloca true 4 20).shortGranuleEntry = some (1, 4, 31) ∧
      (31 : Nat) ≠ 20 - 1 := by
  decide

/-- Claim C2, amended: for every allocation size `s` and granule
`g = 2^scale`: with short granules disabled the shadow is filled with the
allocation tag over `ceil(s/g)` granule bytes and no remainder byte is
written; with short granules enabled and `s` not granule-aligned the
shadow holds `floor(s/g)` tag bytes plus one remainder byte equal to
`s mod g`, and the allocation tag is duplicated at object offset
`alignTo(s,g) - 1` (the last byte of the granule-padded allocation; offset
31 for a 20-byte allocation, not `s - 1 = 19`); with short granules
enabled and `s` granule-aligned the shadow is `s/g` tag bytes with no
remainder byte. -/
theorem claim2_theorem (scale s : Nat) :
    ((tagAlloca false scale s).tagBytes = (s + 2 ^ scale - 1) / 2 ^ scale ∧
      (tagAlloca false scale s).shortGranuleEntry = none) ∧
    (s % 2 ^ scale ≠ 0 →
      tagAlloca true scale s =
        { tagBytes := s / 2 ^ scale,
          shortGranuleEntry :=
            some (s / 2 ^ scale, s % 2 ^ scale, alignTo s (2 ^ scale) - 1) }) ∧
    (s % 2 ^ scale = 0 →
      tagAlloca true scale s =
        { tagBytes := s / 2 ^ scale, shortGranuleEntry := none }) := by
  have hg : (0:Nat) < 2 ^ scale := Nat.pos_pow_of_pos _ (by norm_num)
  refine ⟨⟨?_, ?_⟩, ?_, ?_⟩
  · simp [tagAlloca, Nat.one_shiftLeft, Nat.shiftRight_eq_div_pow, alignTo,
      Nat.mul_div_cancel _ hg]
  · simp [tagAlloca]
  · intro h
    have hne : s ≠ alignTo s (2 ^ scale) :=
      Nat.ne_of_lt (lt_alignTo_of_mod_ne_zero hg h)
    simp [tagAlloca, Nat.one_shiftLeft, Nat.shiftRight_eq_div_pow, hne]
  · intro h
    have ha := alignTo_of_mod_eq_zero hg h
    simp [tagAlloca, Nat.one_shiftLeft, Nat.shiftRight_eq_div_pow, ha]

/-- Claim C2, witness: the 20-byte allocation with granule 16 (Scenario B,
with the corrected duplicate-tag offset 31). -/
theorem claim2_witness :
    tagAlloca true 4 20 =
      { tagBytes := 1, shortGranuleEntry := some (1, 4, 31) } :=
  ((claim2_theorem 4 20).2.1 (by decide)).trans (by decide)

/-! ## Claim C3 -/

/-- Claim C3: under the inline check strategy, when the loaded shadow
memory tag differs from the pointer tag, is not the match-all tag, and is
at most 15 (a short-granule marker), the check computes
`lowBits(address,4) + (accessSize - 1)` (with `accessSize =
1 << accessSizeIndex`) and faults as out-of-bounds whenever that value is
greater than or equal to the memory tag — equality included, the boundary
being exclusive — while a strictly smaller value defers to the inline-tag
comparison against the granule's last byte. -/
theorem claim3_theorem (matchAllTag : Option Nat)
    (ptrTag memTag addr k inlineTag : Nat)
    (hne : ptrTag ≠ memTag)
    (hma : ∀ m, matchAllTag = some m → ptrTag ≠ m)
    (hshort : memTag ≤ 15) (hk : k ≤ 4) :
    (memTag ≤ (addr &&& 15) + ((1 <<< k) - 1) →
      inlineCheckFault matchAllTag ptrTag memTag addr k inlineTag = true) ∧
    ((addr &&& 15) + ((1 <<< k) - 1) < memTag →
      inlineCheckFault matchAllTag ptrTag memTag addr k inlineTag =
        (ptrTag != inlineTag)) := by
  have hlow : (addr &&& 15) ≤ 15 := Nat.and_le_right
  have hpow : (1 <<< k) - 1 ≤ 15 := by
    rw [Nat.one_shiftLeft]
    have h16 : 2 ^ k ≤ 2 ^ 4 := Nat.pow_le_pow_right (by norm_num) hk
    omega
  have hmod : ((addr &&& 15) + ((1 <<< k) - 1)) % 256 =
      (addr &&& 15) + ((1 <<< k) - 1) :=
    Nat.mod_eq_of_lt (by omega)
  cases matchAllTag with
  | none =>
    constructor
    · intro hge
      simp [inlineCheckFault, hne, hmod, show ¬ (15 < memTag) by omega, hge]
    · intro hlt
      simp [inlineCheckFault, hne, hmod, show ¬ (15 < memTag) by omega,
        show ¬ (memTag ≤ (addr &&& 15) + ((1 <<< k) - 1)) by omega]
  | some m =>
    have hm : ptrTag ≠ m := hma m rfl
    constructor
    · intro hge
      simp [inlineCheckFault, hne, hm, hmod, show ¬ (15 < memTag) by omega, hge]
    · intro hlt
      simp [inlineCheckFault, hne, hm, hmod, show ¬ (15 < memTag) by omega,
        show ¬ (memTag ≤ (addr &&& 15) + ((1 <<< k) - 1)) by omega]

/-- Claim C3, witness at the exclusive boundary: pointer tag 1, memory tag
9, address low bits 2, access-size index 3 (8-byte access), so
`lowBits + (accessSize - 1) = 2 + 7 = 9 = memTag` — equality faults. -/
theorem claim3_witness :
    inlineCheckFault none 1 9 2 3 0 = true :=
  (claim3_theorem none 1 9 2 3 0 (by decide) (fun m h => nomatch h)
      (by decide) (by decide)).1 (by decide)

/-! ## Claim C4 -/

/-- Claim C4: `retagMask` is a deterministic function of the allocation
index; on x86_64 it equals `AllocaNo & TagMaskByte`; on table-based
architectures it selects from the fixed 36-entry `FastMasks` table of
byte values indexed by `AllocaNo mod 36`, hence has period 36. -/
theorem claim4_theorem :
    (∀ n, retagMask true n = n &&& tagMaskByte true) ∧
    (∀ n, retagMask false (n + 36) = retagMask false n) ∧
    fastMasks.length = 36 ∧ (∀ x ∈ fastMasks, x < 256) := by
  refine ⟨fun n => rfl, fun n => ?_, by decide, by decide⟩
  have hlen : fastMasks.length = 36 := by decide
  simp [retagMask, hlen, Nat.add_mod_right]

/-! ## Claim C5 -/

/-- Claim C5: every tag assigned to an eligible global lies in
`[16, TagMaskByte]`; the sequence starts from the module-hash seed
(clamped into range before first use) and each subsequent eligible global
receives the successor value except that it wraps back to 16 whenever the
successor would leave `[16, TagMaskByte]`. -/
theorem claim5_theorem (tagMask seed : Nat) (h16 : 16 ≤ tagMask)
    (h255 : tagMask ≤ 255) :
    globalTag tagMask seed 0 =
      (if seed < 16 ∨ tagMask < seed then 16 else seed) ∧
    ∀ n, (16 ≤ globalTag tagMask seed n ∧ globalTag tagMask seed n ≤ tagMask) ∧
      globalTag tagMask seed (n + 1) =
        (if tagMask < globalTag tagMask seed n + 1 then 16
         else globalTag tagMask seed n + 1) := by
  refine ⟨rfl, fun n => ⟨?_, ?_⟩⟩
  · cases n with
    | zero => exact clampGlobalTag_mem h16 seed
    | succ m => exact clampGlobalTag_mem h16 _
  · have hr : 16 ≤ globalTag tagMask seed n ∧ globalTag tagMask seed n ≤ tagMask := by
      cases n with
      | zero => exact clampGlobalTag_mem h16 seed
      | succ m => exact clampGlobalTag_mem h16 _
    show clampGlobalTag tagMask ((globalTag tagMask seed n + 1) % 256) = _
    unfold clampGlobalTag
    split_ifs <;> omega

/-- Claim C5, witness: x86_64 tag mask `0x3F`, seed 200 (out of range, so
the first global gets tag 16). -/
theorem claim5_witness :
    globalTag 0x3F 200 0 = (if (200:Nat) < 16 ∨ (0x3F:Nat) < 200 then 16 else 200) ∧
      16 ≤ globalTag 0x3F 200 3 ∧ globalTag 0x3F 200 3 ≤ 0x3F :=
  ⟨(claim5_theorem 0x3F 200 (by norm_num) (by norm_num)).1,
   ((claim5_theorem 0x3F 200 (by norm_num) (by norm_num)).2 3).1⟩

/-! ## Claim C6 -/

/-- Claim C6: `ShadowMapping::init` always produces a mapping with exactly
one addressing mode active, deciding in priority order: platform-fixed
zero-offset (Fuchsia), then explicit numeric offset override, then
kernel/call-based mode (offset 0, neither TLS nor global), then
ifunc-global dynamic shadow, then TLS-resident dynamic shadow with frame
records, then plain dynamic shadow without frame records. -/
theorem claim6_theorem (cfg : MappingConfig) :
    addressingModes (shadowMappingInit cfg) = 1 ∧
    (cfg.isFuchsia = true →
      shadowMappingInit cfg =
        { scale := 4, offset := 0, inGlobal := false, inTls := false,
          withFrameRecord := true }) ∧
    (∀ off, cfg.isFuchsia = false → cfg.clMappingOffset = some off →
      shadowMappingInit cfg =
        { scale := 4, offset := off, inGlobal := false, inTls := false,
          withFrameRecord := false }) ∧
    (cfg.isFuchsia = false → cfg.clMappingOffset = none →
      (cfg.clEnableKhwasan || cfg.instrumentWithCalls) = true →
      shadowMappingInit cfg =
        { scale := 4, offset := 0, inGlobal := false, inTls := false,
          withFrameRecord := false }) ∧
    (cfg.isFuchsia = false → cfg.clMappingOffset = none →
      (cfg.clEnableKhwasan || cfg.instrumentWithCalls) = false →
      cfg.clWithIfunc = true →
      shadowMappingInit cfg =
        { scale := 4, offset := kDynamicShadowSentinel, inGlobal := true,
          inTls := false, withFrameRecord := false }) ∧
    (cfg.isFuchsia = false → cfg.clMappingOffset = none →
      (cfg.clEnableKhwasan || cfg.instrumentWithCalls) = false →
      cfg.clWithIfunc = false → cfg.clWithTls = true →
      shadowMappingInit cfg =
        { scale := 4, offset := kDynamicShadowSentinel, inGlobal := false,
          inTls := true, withFrameRecord := true }) ∧
    (cfg.isFuchsia = false → cfg.clMappingOffset = none →
      (cfg.clEnableKhwasan || cfg.instrumentWithCalls) = false →
      cfg.clWithIfunc = false → cfg.clWithTls = false →
      shadowMappingInit cfg =
        { scale := 4, offset := kDynamicShadowSentinel, inGlobal := false,
          inTls := false, withFrameRecord := false }) := by
  obtain ⟨fu, mo, kh, ic, wi, wt⟩ := cfg
  have h0 : (0:Nat) ≠ kDynamicShadowSentinel := by decide
  cases fu <;> rcases mo with _ | off <;> cases kh <;> cases ic <;>
    cases wi <;> cases wt <;>
    simp [shadowMappingInit, addressingModes, kDefaultShadowScale, h0] <;>
    (by_cases h : off = kDynamicShadowSentinel <;> simp [h])

/-- Claim C6, witness: the default Linux user-space configuration (TLS
dynamic shadow with frame records). -/
theorem claim6_witness :
    shadowMappingInit
        { isFuchsia := false, clMappingOffset := none,
          clEnableKhwasan := false, instrumentWithCalls := false,
          clWithIfunc := false, clWithTls := true } =
      { scale := 4, offset := kDynamicShadowSentinel, inGlobal := false,
        inTls := true, withFrameRecord := true } :=
  (claim6_theorem
      { isFuchsia := false, clMappingOffset := none,
        clEnableKhwasan := false, instrumentWithCalls := false,
        clWithIfunc := false, clWithTls := true }).2.2.2.2.2.1
    rfl rfl rfl rfl rfl

/-! ## Claim C7 -/

/-- Claim C7, counterexample: re-running global tagging is not a no-op.
After one run on a module with a single eligible global `g`, the module
holds the storage object `g.hwasan` (private linkage, no section, no
NoHWAddress metadata), which passes the eligibility filter again, so the
second run selects it and would rewrite it once more. -/
theorem claim7_counterexample :
    ((instrumentGlobalsOnce
        { vars := [{ name := "g", noHWAddress := false,
                     isDeclarationForLinker := false, isThreadLocal := false,
                     hasCommonLinkage := false, hasSection := false }],
          aliases := [] }).vars.filter selectedForTagging) ≠ [] := by
  decide

/-- Claim C7, amended: on a second run the original symbol — now a global
alias — is indeed never selected again (aliases are not module globals and
the rewrite only scans `M.globals()`), and the descriptor globals are
filtered out by their `hwasan_globals` section; but the renamed storage
object passes the eligibility filter again (provided its `.hwasan` name
does not happen to start with `llvm.`), so re-running global tagging
re-instruments it and is not a no-op. -/
theorem claim7_theorem (g : GlobalInfo)
    (hsel : selectedForTagging g = true)
    (hname : strStartsWith (g.name ++ hwasanSuffix) llvmDot = false) :
    selectedForTagging (storageGlobal g) = true ∧
    selectedForTagging (descriptorGlobal g) = false := by
  simp only [selectedForTagging, Bool.and_eq_true, Bool.not_eq_true'] at hsel
  obtain ⟨⟨⟨⟨⟨h1, h2⟩, h3⟩, h4⟩, h5⟩, h6⟩ := hsel
  constructor
  · simp [selectedForTagging, storageGlobal, h1, h4, h6, hname]
  · simp [selectedForTagging, descriptorGlobal]

/-- Claim C7, witness: the single eligible global named `g`. -/
theorem claim7_witness :
    selectedForTagging
        (storageGlobal
          { name := "g", noHWAddress := false, isDeclarationForLinker := false,
            isThreadLocal := false, hasCommonLinkage := false,
            hasSection := false }) = true :=
  (claim7_theorem
      { name := "g", noHWAddress := false, isDeclarationForLinker := false,
        isThreadLocal := false, hasCommonLinkage := false,
        hasSection := false }
      (by decide) (by decide)).1

/-! ## Claim C9 -/

/-- Claim C9: a function that does not carry the `sanitize_hwaddress`
attribute — and likewise the pass's own generated module constructor — is
never instrumented: `sanitizeFunction` returns from its guard clauses
before touching any instruction, and the personality-thunk protocol also
skips any function without the attribute. -/
theorem claim9_theorem (f : FuncInfo)
    (h : f.sanitizeHWAddress = false ∨ f.isHwasanCtor = true) :
    sanitizeFunctionActs f = false ∧
    (f.sanitizeHWAddress = false → personalityThunkApplies f = false) := by
  constructor
  · rcases h with h | h <;> simp [sanitizeFunctionActs, h]
  · intro h2
    simp [personalityThunkApplies, h2]

/-- Claim C9, witness: an ordinary definition without the attribute. -/
theorem claim9_witness :
    sanitizeFunctionActs
        { isHwasanCtor := false, sanitizeHWAddress := false,
          isDeclaration := false, hasPersonalityFn := true,
          hasNoUnwindAttr := false } = false ∧
      personalityThunkApplies
        { isHwasanCtor := false, sanitizeHWAddress := false,
          isDeclaration := false, hasPersonalityFn := true,
          hasNoUnwindAttr := false } = false := by
  have h := claim9_theorem
    { isHwasanCtor := false, sanitizeHWAddress := false,
      isDeclaration := false, hasPersonalityFn := true,
      hasNoUnwindAttr := false } (Or.inl rfl)
  exact ⟨h.1, h.2 rfl⟩

/-! ## Claim C10 -/

/-- Claim C10: for every interesting memory operand that carries a mask (a
masked vector access), `instrumentMemAccess` returns `false` without
emitting any check, callback or trap sequence and without rewriting the
access's pointer operand. -/
theorem claim10_theorem (cfg : AccessConfig) (o : MemAccessOperand)
    (h : o.maybeMask = true) :
    instrumentMemAccess cfg o =
      { changed := false, emission := MemCheckEmission.noEmission,
        untagsPointerOperand := false } := by
  simp [instrumentMemAccess, h]

/-- Claim C10, witness: a masked 128-bit vector store under the default
configuration. -/
theorem claim10_witness :
    instrumentMemAccess
        { instrumentWithCalls := false, outlinedChecks := false, scale := 4,
          archIgnoresTagBits := true }
        { maybeMask := true, isWrite := true, typeStoreSizeBits := 128,
          isScalable := false, alignment := some 16 } =
      { changed := false, emission := MemCheckEmission.noEmission,
        untagsPointerOperand := false } :=
  claim10_theorem
    { instrumentWithCalls := false, outlinedChecks := false, scale := 4,
      archIgnoresTagBits := true }
    { maybeMask := true, isWrite := true, typeStoreSizeBits := 128,
      isScalable := false, alignment := some 16 } rfl

end HWASan
